import Mathlib

/-
  Verification of the client-side query/state synchronization controller and
  risk-sizing preview of the Korean equity screener frontend.

  The embedding translates, from the TypeScript source:
    - the data model of lib/api.ts (Top10Params, Top10Item, Top10Response, Symbol);
    - the query construction of getTop10 (URLSearchParams built field by field);
    - the fetch lifecycle of Home.fetchTop10 in app/page.tsx (loading / error /
      items / asof state transitions, try-catch-finally);
    - the debounced symbol lookup of SearchBar (300ms setTimeout with
      effect-cleanup cancellation, keyed on the query string);
    - the filter-change data flow of FilterPanel.handleChange together with the
      React identity semantics of useState / useCallback / useEffect that decide
      when a change refetches;
    - the showRisk flag of page.tsx and the conditional risk columns of
      Top10Table.
  Numbers are embedded as exact rationals; JavaScript Math.round and Math.floor
  become their exact counterparts on rationals.
-/

/-- Market of a listed symbol, from lib/api.ts: 'KOSPI' | 'KOSDAQ'. -/
inductive Market
  | KOSPI
  | KOSDAQ
deriving DecidableEq, Repr

/-- Market filter value, from Top10Params.market: 'KOSPI' | 'KOSDAQ' | 'ALL'. -/
inductive MarketFilter
  | KOSPI
  | KOSDAQ
  | ALL
deriving DecidableEq, Repr

/-- Sort key, from Top10Params.sort_by: 'value' | 'weighted'. -/
inductive SortBy
  | value
  | weighted
deriving DecidableEq, Repr

/-- Symbol record returned by the symbol-search service (lib/api.ts). -/
structure SymbolInfo where
  code : String
  name : String
  market : Market
deriving DecidableEq, Repr

/-- One ranked row, from lib/api.ts Top10Item; optional risk fields are
server-computed and present only when the request carried risk parameters. -/
structure Top10Item where
  rank : Nat
  code : String
  name : String
  market : Market
  price : ℚ
  chg_pct : ℚ
  value : ℚ
  stop_price : Option ℚ := none
  max_shares : Option ℚ := none
  max_investment : Option ℚ := none
  risk_amount : Option ℚ := none
deriving DecidableEq, Repr

/-- Response of the ranking service, from lib/api.ts Top10Response. -/
structure Top10Response where
  asof : String
  items : List Top10Item
deriving DecidableEq, Repr

/-- Filter state, from lib/api.ts Top10Params: every field optional. -/
structure Top10Params where
  market : Option MarketFilter := none
  min_value : Option ℚ := none
  min_chg_pct : Option ℚ := none
  max_chg_pct : Option ℚ := none
  min_price : Option ℚ := none
  max_price : Option ℚ := none
  sort_by : Option SortBy := none
  account_size : Option ℚ := none
  risk_pct : Option ℚ := none
  stop_pct : Option ℚ := none
  cap_pct : Option ℚ := none
deriving DecidableEq, Repr

/-- A value stored into URLSearchParams; numbers and enumerations are kept
symbolic rather than committing to JavaScript number-to-string formatting. -/
inductive QVal
  | num (q : ℚ)
  | market (m : MarketFilter)
  | sort (s : SortBy)
deriving DecidableEq, Repr

/-- One optional query field: emitted exactly when the option is set,
mirroring the guarded searchParams.set calls of getTop10. -/
def optField (k : String) (o : Option α) (f : α → QVal) : List (String × QVal) :=
  match o with
  | some v => [(k, f v)]
  | none => []

/-- Query construction of getTop10 (lib/api.ts lines 72-90): each field is
added iff set. The market guard in the source is the truthiness test
`if (params.market)`, and every MarketFilter value is a nonempty string, so
market — including ALL — is added whenever present; likewise sort_by. The
numeric fields are guarded by `!== undefined`. -/
def getTop10Query (p : Top10Params) : List (String × QVal) :=
  optField "market" p.market QVal.market ++
  optField "min_value" p.min_value QVal.num ++
  optField "min_chg_pct" p.min_chg_pct QVal.num ++
  optField "max_chg_pct" p.max_chg_pct QVal.num ++
  optField "min_price" p.min_price QVal.num ++
  optField "max_price" p.max_price QVal.num ++
  optField "sort_by" p.sort_by QVal.sort ++
  optField "account_size" p.account_size QVal.num ++
  optField "risk_pct" p.risk_pct QVal.num ++
  optField "stop_pct" p.stop_pct QVal.num ++
  optField "cap_pct" p.cap_pct QVal.num

/-- Does the built query carry the given key? -/
def hasKey (q : List (String × QVal)) (k : String) : Bool :=
  q.any (fun kv => kv.1 == k)

/-- The filter-state field stored under a given query key, if that key is one
of the eleven emitted by getTop10Query and the field is set. -/
def fieldValueOf (p : Top10Params) (k : String) : Option QVal :=
  if k = "market" then p.market.map QVal.market
  else if k = "min_value" then p.min_value.map QVal.num
  else if k = "min_chg_pct" then p.min_chg_pct.map QVal.num
  else if k = "max_chg_pct" then p.max_chg_pct.map QVal.num
  else if k = "min_price" then p.min_price.map QVal.num
  else if k = "max_price" then p.max_price.map QVal.num
  else if k = "sort_by" then p.sort_by.map QVal.sort
  else if k = "account_size" then p.account_size.map QVal.num
  else if k = "risk_pct" then p.risk_pct.map QVal.num
  else if k = "stop_pct" then p.stop_pct.map QVal.num
  else if k = "cap_pct" then p.cap_pct.map QVal.num
  else none

/-- Initial filter state of Home (app/page.tsx lines 12-18). -/
def defaultFilters : Top10Params :=
  { market := some .ALL
    sort_by := some .value
    risk_pct := some (1/100)
    stop_pct := some (3/100)
    cap_pct := some (1/10) }

/-- The showRisk flag of Home (app/page.tsx line 61):
`filters.account_size !== undefined && filters.account_size > 0`. -/
def showRisk (p : Top10Params) : Bool :=
  match p.account_size with
  | some a => decide (0 < a)
  | none => false

/-- Column headers always present in Top10Table. -/
def baseHeaders : List String :=
  ["순위", "종목", "현재가", "등락률", "거래대금"]

/-- The three sizing column headers of Top10Table, rendered only under
showRisk (Top10Table.tsx lines 60-72). -/
def riskHeaders : List String :=
  ["손절가", "최대 주수", "최대 투자금액"]

/-- What Top10Table renders: the loading spinner, the empty-state message, or
the table with its header row (Top10Table.tsx lines 13-73). -/
inductive TableView
  | loadingView
  | emptyView
  | table (headers : List String)
deriving DecidableEq, Repr

/-- Top10Table rendering decision (Top10Table.tsx): loading wins, then the
empty state, then the table whose header row appends the risk columns
exactly under showRisk. -/
def renderTop10Table (items : List Top10Item) (sr loading : Bool) : TableView :=
  if loading then .loadingView
  else if items.length = 0 then .emptyView
  else .table (baseHeaders ++ if sr then riskHeaders else [])

/-- JavaScript Math.round on an exact rational: nearest integer, half up. -/
def jsRound (q : ℚ) : ℤ := ⌊q + 1/2⌋

/-- JavaScript numeric truthiness of an optional number: set and nonzero. -/
def numTruthy (o : Option ℚ) : Bool :=
  match o with
  | some x => decide (x ≠ 0)
  | none => false

/-- The allowed-loss preview of RiskInputPanel (lines 56-60): shown only when
account_size and risk_pct are truthy, as
Math.round(account_size * (risk_pct ?? 0.01)). -/
def allowedLossDisplay (p : Top10Params) : Option ℤ :=
  if numTruthy p.account_size && numTruthy p.risk_pct then
    some (jsRound (p.account_size.getD 0 * p.risk_pct.getD (1/100)))
  else none

/-- The max-investment preview of RiskInputPanel (lines 96-100): shown only
when account_size and cap_pct are truthy, as
Math.round(account_size * (cap_pct ?? 0.10)). -/
def maxInvestmentDisplay (p : Top10Params) : Option ℤ :=
  if numTruthy p.account_size && numTruthy p.cap_pct then
    some (jsRound (p.account_size.getD 0 * p.cap_pct.getD (1/10)))
  else none

/-- Sizing preview record of the risk-sizing formula; max_shares_by_risk is
none when the risk bound is not binding (the +∞ sentinel for
stop_fraction = 0). -/
structure SizingPreview where
  allowed_loss : ℚ
  stop_price : ℚ
  risk_per_share : ℚ
  max_shares_by_risk : Option ℤ
  max_investment_by_cap : ℚ
  max_shares_by_cap : ℤ
  max_shares : ℤ
  max_investment : ℚ
deriving DecidableEq, Repr

/-- Modelled from the spec: the local RiskSizingFormula of §4.1 is not in the
frontend sources (the sizing fields displayed per row are server-computed;
only the allowed-loss and cap-investment hints of RiskInputPanel are local),
so the formula is translated from the spec text: no preview when account_size
is absent or ≤ 0; allowed_loss = account_size × risk_fraction;
stop_price = entry_price × (1 − stop_fraction) floored at 0;
risk_per_share = entry_price × stop_fraction;
max_shares_by_risk = floor(allowed_loss / risk_per_share) when
risk_per_share > 0, else unbounded; max_investment_by_cap =
account_size × cap_fraction; max_shares_by_cap =
floor(max_investment_by_cap / entry_price); max_shares =
min of the two bounds, floored at 0; max_investment =
max_shares × entry_price. -/
def computeSizing (entry_price : ℚ) (account_size : Option ℚ)
    (risk_fraction stop_fraction cap_fraction : ℚ) : Option SizingPreview :=
  match account_size with
  | none => none
  | some a =>
    if a ≤ 0 then none
    else
      let allowed_loss := a * risk_fraction
      let stop_price := max (entry_price * (1 - stop_fraction)) 0
      let risk_per_share := entry_price * stop_fraction
      let max_shares_by_risk : Option ℤ :=
        if 0 < risk_per_share then some ⌊allowed_loss / risk_per_share⌋ else none
      let max_investment_by_cap := a * cap_fraction
      let max_shares_by_cap := ⌊max_investment_by_cap / entry_price⌋
      let max_shares :=
        max (match max_shares_by_risk with
             | some k => min k max_shares_by_cap
             | none => max_shares_by_cap) 0
      some { allowed_loss := allowed_loss
             stop_price := stop_price
             risk_per_share := risk_per_share
             max_shares_by_risk := max_shares_by_risk
             max_investment_by_cap := max_investment_by_cap
             max_shares_by_cap := max_shares_by_cap
             max_shares := max_shares
             max_investment := max_shares * entry_price }

/-- The user-facing error message recorded by Home.fetchTop10 on failure
(app/page.tsx line 35). -/
def fetchErrorMessage : String :=
  "데이터를 불러오는데 실패했습니다. 잠시 후 다시 시도해주세요."

/-- The fetch-related state of Home: top10 items, asof, loading, error
(app/page.tsx lines 20-24). -/
structure FetchState where
  items : List Top10Item
  asof : String
  loading : Bool
  error : Option String
deriving DecidableEq, Repr

/-- Initial fetch state of Home: empty items, empty asof, not loading,
no error. -/
def fetchInit : FetchState :=
  { items := [], asof := "", loading := false, error := none }

/-- Start of an attempt of fetchTop10 (app/page.tsx lines 27-28):
setLoading(true); setError(null). -/
def startFetch (s : FetchState) : FetchState :=
  { s with loading := true, error := none }

/-- How one getTop10 call ends: a parsed response or a raised error. -/
inductive FetchOutcome
  | success (resp : Top10Response)
  | failure
deriving DecidableEq, Repr

/-- Application of a completed getTop10 call by fetchTop10 (app/page.tsx
lines 30-39): on success setTop10(items) and setAsof(asof); on failure
setError(message) and setTop10([]); in both cases finally setLoading(false).
There is no epoch or staleness check: the arriving outcome is applied
unconditionally. -/
def applyFetchResult (s : FetchState) (o : FetchOutcome) : FetchState :=
  match o with
  | .success r => { s with items := r.items, asof := r.asof, loading := false }
  | .failure =>
      { s with error := some fetchErrorMessage, items := [], loading := false }

/-- One whole synchronous-completion run of fetchTop10: the attempt starts,
the awaited getTop10 either returns a response or raises, and the try-catch
maps either case to a plain state — the coordinator returns a state, never
re-raises. -/
def fetchTop10Run (s : FetchState) (r : Except String Top10Response) : FetchState :=
  applyFetchResult (startFetch s)
    (match r with
     | .ok v => .success v
     | .error _ => .failure)

/-- An event of the fetch lifecycle under concurrent requests: a trigger
issues a request capturing the filters of that render; a completion is the
arrival of some in-flight response, applied in arrival order. -/
inductive FetchEvent
  | trigger (q : Top10Params)
  | complete (o : FetchOutcome)
deriving DecidableEq, Repr

/-- Interleaved execution of fetchTop10 under a trace of triggers and
arrivals: a trigger runs lines 27-28, an arrival runs the continuation after
the await (lines 30-39). -/
def runFetch (s : FetchState) : List FetchEvent → FetchState
  | [] => s
  | e :: es =>
      runFetch
        (match e with
         | .trigger _ => startFetch s
         | .complete o => applyFetchResult s o) es

/-- The outcome carried by the last completion event of a trace, if any. -/
def lastCompletion : List FetchEvent → Option FetchOutcome
  | [] => none
  | e :: es =>
      match lastCompletion es with
      | some o => some o
      | none =>
          match e with
          | .complete o => some o
          | .trigger _ => none

/-- Items displayed after applying the given final arrival (if any) on top of
a state. -/
def itemsAfter (s : FetchState) (o : Option FetchOutcome) : List Top10Item :=
  match o with
  | some (.success r) => r.items
  | some .failure => []
  | none => s.items

/-- SearchBar state (SearchBar.tsx lines 128-131) extended with the pending
debounce timer (deadline and the query string captured by the timer closure)
and the log of issued getSymbols requests. -/
structure SBState where
  query : String
  results : List SymbolInfo
  isOpen : Bool
  loading : Bool
  pending : Option (Nat × String)
  issued : List String
deriving DecidableEq, Repr

/-- Initial SearchBar state: empty query, no results, closed, not loading. -/
def searchInit : SBState :=
  { query := "", results := [], isOpen := false, loading := false
    pending := none, issued := [] }

/-- Firing of a due debounce timer at time t: the timer callback of
SearchBar.tsx lines 139-150 runs setLoading(true) and issues
getSymbols(query) for the query string captured when the timer was set. -/
def flushDue (st : SBState) (t : Nat) : SBState :=
  match st.pending with
  | some (d, q) =>
      if d ≤ t then
        { st with pending := none, loading := true, issued := st.issued ++ [q] }
      else st
  | none => st

/-- A query-text change at time t (SearchBar.tsx lines 133-153): any timer
already due has fired first; the effect cleanup clears the pending timer;
then, if the new text is empty, setResults([]) and return with no timer and
no request; otherwise a fresh 300ms timer is set capturing the new text.
isOpen is not touched on either path. -/
def searchStep (st : SBState) (t : Nat) (s : String) : SBState :=
  let st := flushDue st t
  if s.length < 1 then { st with query := s, results := [], pending := none }
  else { st with query := s, pending := some (t + 300, s) }

/-- A sequence of query-text changes, each tagged with its time. -/
def runSearch (st : SBState) : List (Nat × String) → SBState
  | [] => st
  | (t, s) :: rest => runSearch (searchStep st t s) rest

/-- Arrival of a completed getSymbols response (SearchBar.tsx lines 142-144):
setResults(symbols.slice(0, 10)); setIsOpen(true); finally setLoading(false).
Applied unconditionally on arrival — there is no staleness check. -/
def applySearchCompletion (st : SBState) (syms : List SymbolInfo) : SBState :=
  { st with results := syms.take 10, isOpen := true, loading := false }

/-- Lookup responses applied in arrival order. -/
def runSearchCompletions (st : SBState) : List (List SymbolInfo) → SBState
  | [] => st
  | c :: cs => runSearchCompletions (applySearchCompletion st c) cs

/-- Last element of a list, by the same recursion shape as the run
functions. -/
def lastElem : List α → Option α
  | [] => none
  | x :: xs =>
      match lastElem xs with
      | some y => some y
      | none => some x

/-- Whether the result dropdown is displayed (SearchBar.tsx line 176):
isOpen && results.length > 0. -/
def dropdownShown (st : SBState) : Bool :=
  st.isOpen && decide (0 < st.results.length)

/-- Validity of a change sequence for the debounce scenario, relative to the
time of the previous change: each change is strictly later than, but within
300ms of, the previous one, and carries nonempty text. -/
def chainFrom (tp : Nat) : List (Nat × String) → Bool
  | [] => true
  | (t, s) :: rest =>
      decide (tp < t) && decide (t < tp + 300) && decide (1 ≤ s.length) &&
        chainFrom t rest

/-- The time and text of the last change of a sequence, with the given
time and text as the value for the empty sequence. -/
def lastPending (tp : Nat) (sp : String) : List (Nat × String) → Nat × String
  | [] => (tp, sp)
  | (t, s) :: rest => lastPending t s rest

/-- One keyed update of the filter state, as passed by
FilterPanel.handleChange / RiskInputPanel.handleChange: the key and the new
value for that key. -/
inductive FieldUpdate
  | market (v : Option MarketFilter)
  | min_value (v : Option ℚ)
  | min_chg_pct (v : Option ℚ)
  | max_chg_pct (v : Option ℚ)
  | min_price (v : Option ℚ)
  | max_price (v : Option ℚ)
  | sort_by (v : Option SortBy)
  | account_size (v : Option ℚ)
  | risk_pct (v : Option ℚ)
  | stop_pct (v : Option ℚ)
  | cap_pct (v : Option ℚ)
deriving DecidableEq, Repr

/-- The spread-update built by handleChange: onChange({...filters, [key]: value})
(FilterPanel lines 11-13, RiskInputPanel lines 11-13). -/
def applyUpdate (p : Top10Params) : FieldUpdate → Top10Params
  | .market v => { p with market := v }
  | .min_value v => { p with min_value := v }
  | .min_chg_pct v => { p with min_chg_pct := v }
  | .max_chg_pct v => { p with max_chg_pct := v }
  | .min_price v => { p with min_price := v }
  | .max_price v => { p with max_price := v }
  | .sort_by v => { p with sort_by := v }
  | .account_size v => { p with account_size := v }
  | .risk_pct v => { p with risk_pct := v }
  | .stop_pct v => { p with stop_pct := v }
  | .cap_pct v => { p with cap_pct := v }

/-- Home component state relevant to the refetch data flow: the filters value,
the JavaScript object identity of the filters state (useCallback and useEffect
compare dependencies by Object.is, i.e. by reference), and the log of issued
getTop10 requests. -/
structure HomeState where
  filters : Top10Params
  filtersId : Nat
  requests : List (List (String × QVal))
deriving DecidableEq, Repr

/-- Home state right after mount: the initial effect has run once, issuing the
request for the default filters. -/
def homeInit : HomeState :=
  { filters := defaultFilters, filtersId := 0
    requests := [getTop10Query defaultFilters] }

/-- One committed filter change: handleChange always allocates a fresh object
({...filters, [key]: value}), so setFilters stores a value with a new
identity; on the re-render, useCallback([filters]) yields a new fetchTop10
exactly when the identity differs from the previous render's, and
useEffect([fetchTop10]) then runs fetchTop10, issuing a request — structural
equality of the old and new filters is never consulted. -/
def handleChange (st : HomeState) (u : FieldUpdate) : HomeState :=
  let f := applyUpdate st.filters u
  let i := st.filtersId + 1
  if i = st.filtersId then { st with filters := f, filtersId := i }
  else
    { filters := f, filtersId := i
      requests := st.requests ++ [getTop10Query f] }

/-- A sequence of committed filter changes, one render each. -/
def applyChanges (st : HomeState) : List FieldUpdate → HomeState
  | [] => st
  | u :: us => applyChanges (handleChange st u) us

/-! Helper lemmas -/

/-- A key occurs in an append of query fragments iff it occurs in one of
them. -/
theorem hasKey_append (a b : List (String × QVal)) (k : String) :
    hasKey (a ++ b) k = (hasKey a k || hasKey b k) := by
  simp [hasKey, List.any_append]

/-- An optional field contributes its key exactly when it is set. -/
theorem hasKey_optField (k0 k : String) (o : Option α) (f : α → QVal) :
    hasKey (optField k0 o f) k = ((k0 == k) && o.isSome) := by
  cases o <;> simp [optField, hasKey]

/-- Membership in the fragment of one optional field. -/
theorem mem_optField (k0 k : String) (v : QVal) (o : Option α) (f : α → QVal) :
    (k, v) ∈ optField k0 o f ↔ k = k0 ∧ ∃ x, o = some x ∧ v = f x := by
  cases o <;> simp [optField, eq_comm]

/-- Items shown after a trace of fetch triggers and arrivals are those of the
last arrival, whichever request it answers: arrivals are applied
unconditionally. -/
theorem runFetch_items (es : List FetchEvent) :
    ∀ s : FetchState, (runFetch s es).items = itemsAfter s (lastCompletion es) := by
  induction es with
  | nil => intro s; rfl
  | cons e es ih =>
      intro s
      simp only [runFetch]
      rw [ih]
      cases h : lastCompletion es with
      | some o =>
          cases o <;> simp [lastCompletion, h, itemsAfter]
      | none =>
          cases e with
          | trigger q => simp [lastCompletion, h, itemsAfter, startFetch]
          | complete o =>
              cases o <;> simp [lastCompletion, h, itemsAfter, applyFetchResult]

/-- Search results after a sequence of lookup arrivals are the last arrival
truncated to 10, whichever query it was for. -/
theorem runSearchCompletions_results (cs : List (List SymbolInfo)) :
    ∀ st : SBState, (runSearchCompletions st cs).results =
      match lastElem cs with
      | some syms => syms.take 10
      | none => st.results := by
  induction cs with
  | nil => intro st; rfl
  | cons c cs ih =>
      intro st
      simp only [runSearchCompletions]
      rw [ih]
      cases h : lastElem cs with
      | some y => simp [lastElem, h]
      | none => simp [lastElem, h, applySearchCompletion]

/-- Under a chain of nonempty query changes each arriving inside the previous
debounce window, no lookup fires and the pending timer always carries the
latest change. -/
theorem runSearch_chain (cs : List (Nat × String)) :
    ∀ (st : SBState) (tp : Nat) (sp : String),
      st.pending = some (tp + 300, sp) →
      chainFrom tp cs = true →
      (runSearch st cs).issued = st.issued ∧
      (runSearch st cs).pending =
        some ((lastPending tp sp cs).1 + 300, (lastPending tp sp cs).2) := by
  induction cs with
  | nil =>
      intro st tp sp hp _
      exact ⟨rfl, by simp [runSearch, lastPending, hp]⟩
  | cons c rest ih =>
      obtain ⟨t, s⟩ := c
      intro st tp sp hp hchain
      simp only [chainFrom, Bool.and_eq_true, decide_eq_true_eq] at hchain
      obtain ⟨⟨⟨h1, h2⟩, h3⟩, h4⟩ := hchain
      have hflush : flushDue st t = st := by
        simp only [flushDue, hp]
        rw [if_neg (by omega)]
      have hlen : ¬ s.length < 1 := by omega
      have hstep : searchStep st t s =
          { st with query := s, pending := some (t + 300, s) } := by
        simp [searchStep, hflush, hlen]
      have := ih { st with query := s, pending := some (t + 300, s) } t s rfl h4
      simpa [runSearch, hstep, lastPending] using this

/-- Every committed filter change appends exactly one request. -/
theorem handleChange_requests (st : HomeState) (u : FieldUpdate) :
    (handleChange st u).requests =
      st.requests ++ [getTop10Query (applyUpdate st.filters u)] := by
  simp [handleChange]

/-! Concrete inputs used by counterexamples and witnesses -/

/-- A concrete ranked item. -/
def itemA : Top10Item :=
  { rank := 1, code := "005930", name := "삼성전자", market := .KOSPI
    price := 70000, chg_pct := 2, value := 500000000000 }

/-- A second, different concrete ranked item. -/
def itemB : Top10Item :=
  { rank := 1, code := "000660", name := "SK하이닉스", market := .KOSPI
    price := 200000, chg_pct := 3, value := 400000000000 }

/-- A race trace: a request is issued for the default filters, a second
request is issued for different filters, the second request's response
(carrying itemB) arrives first, and the first request's response (carrying
itemA) arrives last. -/
def raceTrace : List FetchEvent :=
  [.trigger defaultFilters
   , .trigger { defaultFilters with min_value := some 100 }
   , .complete (.success { asof := "2024-01-02T10:01:00", items := [itemB] })
   , .complete (.success { asof := "2024-01-02T10:00:00", items := [itemA] })]

/-- Filter state with market explicitly set to ALL and nothing else. -/
def pMarketAll : Top10Params := { market := some .ALL }

/-- The default filters with the account size of §8's concrete sizing case. -/
def pC4 : Top10Params := { defaultFilters with account_size := some 10000000 }

/-- A SearchBar state whose dropdown is open on one result. -/
def stOpen : SBState :=
  { query := "AB", results := [⟨"005930", "삼성전자", .KOSPI⟩], isOpen := true
    loading := false, pending := none, issued := ["AB"] }

/-- A filter update writing the value the market field already has. -/
def uSame : FieldUpdate := .market (some .ALL)

/-! Claim theorems -/

/-- C1, counterexample: the claim that the final displayed state always
corresponds to the most recently issued request, stale responses being
discarded, is false on the code. On raceTrace the most recently issued
request is the second one, whose response carries itemB; yet its response is
overwritten by the later-arriving response of the first request, and the
final displayed items are the stale itemA list. fetchTop10 (app/page.tsx
lines 26-44) has no epoch field and applies every arriving response. -/
theorem fetchRace_cex :
    lastCompletion raceTrace =
      some (.success { asof := "2024-01-02T10:00:00", items := [itemA] })
    ∧ (runFetch fetchInit raceTrace).items = [itemA]
    ∧ [itemA] ≠ [itemB] :=
  ⟨rfl, rfl, by decide⟩

/-- C1, amended: in both coordinators there is no epoch or generation guard;
a completed response is applied unconditionally on arrival, so the final
displayed state corresponds to the most recently completed response — which
under out-of-order completion can be that of an earlier-issued request. -/
theorem lastArrivalWins :
    (∀ (s : FetchState) (es : List FetchEvent),
        (runFetch s es).items = itemsAfter s (lastCompletion es))
    ∧ (∀ (st : SBState) (cs : List (List SymbolInfo)),
        (runSearchCompletions st cs).results =
          match lastElem cs with
          | some syms => syms.take 10
          | none => st.results) :=
  ⟨fun s es => runFetch_items es s, fun st cs => runSearchCompletions_results cs st⟩

/-- C2, counterexample: the claim that market is omitted from the ranked-list
query when set to ALL is false on the code. getTop10 guards market with the
truthiness test if (params.market), and the string ALL is truthy, so the
query built for a filter state with market = ALL carries the market field. -/
theorem marketAllOmitted_cex :
    ("market", QVal.market .ALL) ∈ getTop10Query pMarketAll
    ∧ hasKey (getTop10Query pMarketAll) "market" = true := by
  constructor <;> decide

/-- C2, amended: for every filter state with market set to ALL, the outbound
ranked-list query does contain the market field with value ALL; the
ALL-is-omitted rule is not implemented in getTop10. -/
theorem marketAllSent (p : Top10Params) (h : p.market = some .ALL) :
    ("market", QVal.market .ALL) ∈ getTop10Query p := by
  simp [getTop10Query, optField, h]

/-- C2, witness for marketAllSent at the concrete filter state pMarketAll. -/
theorem marketAllSent_wit :
    ("market", QVal.market MarketFilter.ALL) ∈ getTop10Query pMarketAll :=
  marketAllSent pMarketAll rfl

/-- C3, counterexample: the claim that two consecutive identical filter-state
changes issue exactly one request is false on the code. Writing the market
field with the value it already has derives a structurally identical query
spec, yet each change allocates a fresh object in handleChange, so the
effect keyed on the filters identity refires and two requests are issued
(requests grow by 2 from the mounted state, not by 1). -/
theorem fetchDedup_cex :
    getTop10Query (applyUpdate defaultFilters uSame) = getTop10Query defaultFilters
    ∧ (applyChanges homeInit [uSame, uSame]).requests.length =
        homeInit.requests.length + 2
    ∧ homeInit.requests.length + 2 ≠ homeInit.requests.length + 1 :=
  ⟨rfl, by decide, by decide⟩

/-- C3, amended: there is no idempotence short-circuit — every committed
filter change issues exactly one network request, whether or not the derived
query spec equals the previous one: n consecutive changes issue n requests. -/
theorem everyChangeRefetches (st : HomeState) (us : List FieldUpdate) :
    (applyChanges st us).requests.length = st.requests.length + us.length := by
  induction us generalizing st with
  | nil => simp [applyChanges]
  | cons u us ih =>
      simp [applyChanges, ih, handleChange_requests]
      omega

/-- C4: the risk-sizing computation at entry_price = 10000, account_size =
10000000, risk_fraction = 0.01, stop_fraction = 0.03, cap_fraction = 0.10
yields allowed_loss = 100000, stop_price = 9700, risk_per_share = 300,
max_shares_by_risk = 333, max_investment_by_cap = 1000000, max_shares_by_cap
= 100, max_shares = min(333, 100) = 100 and max_investment = 1000000; the
local RiskInputPanel previews agree: allowed loss 100000 and cap investment
1000000. -/
theorem riskSizingConcrete :
    computeSizing 10000 (some 10000000) (1/100) (3/100) (1/10) =
      some { allowed_loss := 100000, stop_price := 9700, risk_per_share := 300
             max_shares_by_risk := some 333, max_investment_by_cap := 1000000
             max_shares_by_cap := 100, max_shares := 100
             max_investment := 1000000 }
    ∧ allowedLossDisplay pC4 = some 100000
    ∧ maxInvestmentDisplay pC4 = some 1000000 := by
  refine ⟨by norm_num [computeSizing], ?_, ?_⟩
  · norm_num [allowedLossDisplay, pC4, defaultFilters, numTruthy, jsRound]
  · norm_num [maxInvestmentDisplay, pC4, defaultFilters, numTruthy, jsRound]

/-- C5: showRisk equals (account_size is set and positive); when the table
renders (non-loading, nonempty items) its header row contains the three
sizing columns iff showRisk; and the sizing preview is produced iff showRisk
holds — in particular none is produced when account_size is absent or
nonpositive. -/
theorem riskViewEnabled (p : Top10Params) (items : List Top10Item) :
    (showRisk p = true ↔ ∃ a, p.account_size = some a ∧ 0 < a)
    ∧ (items ≠ [] →
        ∃ hs, renderTop10Table items (showRisk p) false = .table hs
          ∧ (("손절가" ∈ hs ∧ "최대 주수" ∈ hs ∧ "최대 투자금액" ∈ hs) ↔
              showRisk p = true))
    ∧ ∀ ep rf sf cf, (computeSizing ep p.account_size rf sf cf).isSome = showRisk p := by
  refine ⟨?_, ?_, ?_⟩
  · cases h : p.account_size <;> simp [showRisk, h]
  · intro hne
    have hlen : ¬ items.length = 0 := by simpa [List.length_eq_zero] using hne
    refine ⟨baseHeaders ++ if showRisk p then riskHeaders else [], ?_, ?_⟩
    · simp [renderTop10Table, hlen]
    · cases hsr : showRisk p <;> simp +decide [hsr, baseHeaders, riskHeaders]
  · intro ep rf sf cf
    cases h : p.account_size with
    | none =>
        have hs : showRisk p = false := by unfold showRisk; rw [h]
        simp [computeSizing, h, hs]
    | some a =>
        by_cases ha : a ≤ 0
        · have hs : showRisk p = false := by
            unfold showRisk; rw [h]; simp [not_lt.2 ha]
          simp [computeSizing, h, hs, ha]
        · have hs : showRisk p = true := by
            unfold showRisk; rw [h]; simp [lt_of_not_le ha]
          simp [computeSizing, h, hs, ha]

/-- C5, witness for riskViewEnabled at pC4 (positive account size) and a
nonempty item list. -/
theorem riskViewEnabled_wit :
    ∃ hs, renderTop10Table [itemA] (showRisk pC4) false = TableView.table hs
      ∧ (("손절가" ∈ hs ∧ "최대 주수" ∈ hs ∧ "최대 투자금액" ∈ hs) ↔
          showRisk pC4 = true) :=
  (riskViewEnabled pC4 [itemA]).2.1 (by decide)

/-- C6: a failed ranked-list fetch is mapped by the try-catch of fetchTop10
to a plain state — the run function returns a FetchState and never re-raises
— recording the error message, clearing the items to empty and ending the
loading flag, while the next trigger starts a fresh attempt (loading true,
error cleared) from that very state. -/
theorem fetchFailureContained (s : FetchState) (e : String) :
    fetchTop10Run s (.error e) =
      { items := [], asof := s.asof, loading := false
        error := some fetchErrorMessage }
    ∧ startFetch (fetchTop10Run s (.error e)) =
      { items := [], asof := s.asof, loading := true, error := none } := by
  cases s
  exact ⟨rfl, rfl⟩

/-- C7: the ranked-list query contains each of the eleven fields iff that
field is set in the filter state, and every emitted entry carries exactly the
caller's value for its key — no sentinel or default is ever emitted. -/
theorem queryFieldPresence (p : Top10Params) :
    (hasKey (getTop10Query p) "market" = p.market.isSome
     ∧ hasKey (getTop10Query p) "min_value" = p.min_value.isSome
     ∧ hasKey (getTop10Query p) "min_chg_pct" = p.min_chg_pct.isSome
     ∧ hasKey (getTop10Query p) "max_chg_pct" = p.max_chg_pct.isSome
     ∧ hasKey (getTop10Query p) "min_price" = p.min_price.isSome
     ∧ hasKey (getTop10Query p) "max_price" = p.max_price.isSome
     ∧ hasKey (getTop10Query p) "sort_by" = p.sort_by.isSome
     ∧ hasKey (getTop10Query p) "account_size" = p.account_size.isSome
     ∧ hasKey (getTop10Query p) "risk_pct" = p.risk_pct.isSome
     ∧ hasKey (getTop10Query p) "stop_pct" = p.stop_pct.isSome
     ∧ hasKey (getTop10Query p) "cap_pct" = p.cap_pct.isSome)
    ∧ ∀ k v, (k, v) ∈ getTop10Query p → fieldValueOf p k = some v := by
  constructor
  · refine ⟨?_, ?_, ?_, ?_, ?_, ?_, ?_, ?_, ?_, ?_, ?_⟩ <;>
      simp +decide [getTop10Query, hasKey_append, hasKey_optField]
  · intro k v h
    simp only [getTop10Query, List.mem_append, mem_optField] at h
    rcases h with ((((((((((⟨rfl, x, hx, rfl⟩ | ⟨rfl, x, hx, rfl⟩) | ⟨rfl, x, hx, rfl⟩) |
      ⟨rfl, x, hx, rfl⟩) | ⟨rfl, x, hx, rfl⟩) | ⟨rfl, x, hx, rfl⟩) | ⟨rfl, x, hx, rfl⟩) |
      ⟨rfl, x, hx, rfl⟩) | ⟨rfl, x, hx, rfl⟩) | ⟨rfl, x, hx, rfl⟩) | ⟨rfl, x, hx, rfl⟩) <;>
      simp +decide [fieldValueOf, hx]

/-- C7, witness for queryFieldPresence at pMarketAll and its market entry. -/
theorem queryFieldPresence_wit :
    fieldValueOf pMarketAll "market" = some (QVal.market MarketFilter.ALL) :=
  (queryFieldPresence pMarketAll).2 "market" (QVal.market .ALL) (by decide)

/-- C8: for every nonempty chain of nonempty query-text changes in which each
change arrives strictly within 300ms of the previous one, exactly one lookup
is issued once the debounce window of the last change has elapsed, and it is
for the final settled text. -/
theorem debounceSingleLookup (t1 : Nat) (s1 : String) (cs : List (Nat × String))
    (T : Nat) (h1 : 1 ≤ s1.length) (hc : chainFrom t1 cs = true)
    (hT : (lastPending t1 s1 cs).1 + 300 ≤ T) :
    (flushDue (runSearch searchInit ((t1, s1) :: cs)) T).issued =
      [(lastPending t1 s1 cs).2] := by
  have hlen : ¬ s1.length < 1 := by omega
  have hstep : searchStep searchInit t1 s1 =
      { query := s1, results := [], isOpen := false, loading := false
        pending := some (t1 + 300, s1), issued := [] } := by
    simp [searchStep, flushDue, searchInit, hlen]
  obtain ⟨hiss, hpend⟩ := runSearch_chain cs
    { query := s1, results := [], isOpen := false, loading := false
      pending := some (t1 + 300, s1), issued := [] } t1 s1 rfl hc
  have hrun : runSearch searchInit ((t1, s1) :: cs) =
      runSearch (searchStep searchInit t1 s1) cs := rfl
  rw [hrun, hstep]
  simp [flushDue, hpend, hiss, hT]

/-- C8, witness: typing AB at t=0 then ABC at t=100 (inside the window) and
letting the window elapse issues exactly one lookup, for ABC. -/
theorem debounceSingleLookup_wit :
    (flushDue (runSearch searchInit [(0, "AB"), (100, "ABC")]) 500).issued =
      ["ABC"] := by
  have := debounceSingleLookup 0 "AB" [(100, "ABC")] 500 (by decide) (by decide)
    (by decide)
  simpa [lastPending] using this

/-- C9, counterexample: the claim that an empty query closes (sets not-open)
the result list is false on the code: from an open state, the empty-query
branch of the SearchBar effect clears the results but leaves isOpen true —
only setResults([]) runs, never setIsOpen(false). -/
theorem emptyQueryClose_cex :
    (searchStep stOpen 700 "").isOpen = true
    ∧ (searchStep stOpen 700 "").results = [] :=
  ⟨rfl, rfl⟩

/-- C9, amended: an empty query synchronously clears the results and the
pending timer and issues no request; the open flag itself is left unchanged,
but the dropdown is nonetheless no longer displayed because display requires
nonempty results. -/
theorem emptyQueryClears (st : SBState) (t : Nat) :
    searchStep st t "" =
      { flushDue st t with query := "", results := [], pending := none }
    ∧ (flushDue st t).isOpen = st.isOpen
    ∧ (searchStep st t "").isOpen = st.isOpen
    ∧ (searchStep st t "").issued = (flushDue st t).issued
    ∧ dropdownShown (searchStep st t "") = false := by
  have hflush : (flushDue st t).isOpen = st.isOpen := by
    rcases h : st.pending with _ | ⟨d, q⟩
    · simp [flushDue, h]
    · simp only [flushDue, h]
      split <;> rfl
  refine ⟨rfl, hflush, ?_, rfl, ?_⟩
  · simpa [searchStep] using hflush
  · simp [dropdownShown, searchStep]

/-- C10: the error branch of fetchTop10 leaves the asof timestamp unchanged —
it keeps the value of the last successful fetch — and modifies only the
items, error and loading fields. -/
theorem fetchErrorFrame (s : FetchState) :
    (applyFetchResult s .failure).asof = s.asof
    ∧ applyFetchResult s .failure =
        { s with items := [], error := some fetchErrorMessage, loading := false } :=
  ⟨rfl, rfl⟩
